import Mathlib

/-!
# Verification of the embedded verification-widget component

Shallow embedding of `src/src/pages/widgetCapture.tsx` (the `WidgetDemo`
React component). The component's mutable refs/state hooks become fields of
`WidgetState`; pending JS timers become an explicit list of `Timer`s; the
event loop becomes a `step` function over an `Event` type, and traces are
`run` over event lists. The external provider (`window.initializeDiroWidget`)
is modelled by two environment flags: whether it is currently available
(`providerAvailable`, flipped by the `providerAppears` event, matching the
external script loading) and whether calling it raises
(`providerThrows`, fixed per scenario). Console output is modelled by
counters (`warnings`, `errors`); `destroyCalls` instruments how many times a
handle's destroy method has been invoked.
-/

namespace WidgetCapture

/-- What a `WidgetInstance.update` method does. The handle the component
itself constructs (line 158 of the source) has a no-op update; the `record`
behaviour models an arbitrary handle obeying the `WidgetInstance` interface,
so that forwarding of payloads is observable. -/
inductive UpdateB
  | noop
  | record
deriving DecidableEq

/-- What a `WidgetInstance.destroy` method does. `missing` models a handle
without the optional `destroy` method; `clearContainer` is the destroy the
component constructs (lines 159-163: clear the container's innerHTML);
`throws` models a destroy that raises (caught by `cleanup`'s try/catch). -/
inductive DestroyB
  | missing
  | clearContainer
  | throws
deriving DecidableEq

/-- The `WidgetInstance` interface (source lines 6-9): an `update` method and
an optional `destroy` method, with `received` recording payloads passed to a
`record`-style update. -/
structure WidgetInstance where
  updateB : UpdateB
  received : List String
  destroyB : DestroyB
deriving DecidableEq

/-- Kinds of pending JS timers created by the component:
`mountDelay` is `setTimeout(initializeWidgetProcess, 300)` from the
`useEffect` keyed on `containerKey` (lines 112-115); `reinitDelay` is the
`setTimeout(..., 100)` inside the ref method at lines 57-59; `pollInterval`
is the `setInterval(..., 200)` at line 91; `timeout10s i` is the
`setTimeout(..., 10000)` at lines 100-103, which clears the interval whose
timer id is `i`. -/
inductive TimerKind
  | mountDelay
  | reinitDelay
  | pollInterval
  | timeout10s (intervalId : Nat)
deriving DecidableEq

/-- A pending timer: its JS timer id and what its callback does. -/
structure Timer where
  id : Nat
  kind : TimerKind
deriving DecidableEq

/-- The component's state: `containerKey` is the `useState` counter keying the
container div; `containerMounted` is whether `containerRef.current` is
non-null; `containerChildren` counts the container's DOM children (innerHTML
clearing sets it to 0, appending the inner widget div sets it to 1);
`widgetInstance`, `isWidgetLoaded`, `hasInitialized` are the ref/state hooks
of the same names; `timers` are the pending timers with `nextTimerId` the
fresh-id supply; the rest are the environment flags and instrumentation
counters described in the module docstring. -/
structure WidgetState where
  containerKey : Nat
  containerMounted : Bool
  containerChildren : Nat
  widgetInstance : Option WidgetInstance
  isWidgetLoaded : Bool
  hasInitialized : Bool
  timers : List Timer
  nextTimerId : Nat
  providerAvailable : Bool
  providerThrows : Bool
  warnings : Nat
  errors : Nat
  destroyCalls : Nat
deriving DecidableEq

/-- The handle the component constructs at source lines 157-164: an update
that does nothing and a destroy that clears the container. -/
def componentHandle : WidgetInstance :=
  { updateB := UpdateB.noop, received := [], destroyB := DestroyB.clearContainer }

/-- Models `if (containerRef.current) containerRef.current.innerHTML = ''` — used by
`cleanup` (lines 75-77) and by the constructed handle's destroy. -/
def clearContainer (s : WidgetState) : WidgetState :=
  if s.containerMounted then { s with containerChildren := 0 } else s

/-- Invoking a handle's destroy method inside `cleanup`'s try/catch (lines
65-69): a raising destroy is caught and logged (`errors` grows); either way
the call is counted in `destroyCalls`. `missing` is never invoked (the guard
at line 64 checks for the method first). -/
def runDestroy (h : WidgetInstance) (s : WidgetState) : WidgetState :=
  match h.destroyB with
  | DestroyB.missing => s
  | DestroyB.clearContainer =>
      let s1 := clearContainer s
      { s1 with destroyCalls := s1.destroyCalls + 1 }
  | DestroyB.throws =>
      { s with errors := s.errors + 1, destroyCalls := s.destroyCalls + 1 }

/-- The `cleanup` function (source lines 63-78): if a widget instance with a destroy
method is present, destroy it (swallowing errors), null the ref and reset
`isWidgetLoaded`; then clear the container's contents. -/
def cleanup (s : WidgetState) : WidgetState :=
  let s1 :=
    match s.widgetInstance with
    | some h =>
        if h.destroyB = DestroyB.missing then s
        else
          let s2 := runDestroy h s
          { s2 with widgetInstance := none, isWidgetLoaded := false }
    | none => s
  clearContainer s1

/-- The target URL construction at source lines 129-131. The JS conditional
`urn ? ... : ...` treats the empty string as falsy, so `some ""` takes the
same branch as an absent `urn`. -/
def targetUrl (urn : Option String) : String :=
  match urn with
  | some u =>
      if u = "" then
        "https://verification.diro.io/?buttonid=O.c117bd44-8cfa-42df-99df-c4ad2ba6c6f5-Z6Jc&trackid="
      else
        "https://verification.diro.io/?buttonid=O.c117bd44-8cfa-42df-99df-c4ad2ba6c6f5-Z6Jc&trackid=" ++ u
  | none =>
      "https://verification.diro.io/?buttonid=O.c117bd44-8cfa-42df-99df-c4ad2ba6c6f5-Z6Jc&trackid="

/-- The fixed prefix of every constructed URL. -/
def buttonBase : String :=
  "https://verification.diro.io/?buttonid=O.c117bd44-8cfa-42df-99df-c4ad2ba6c6f5-Z6Jc&trackid="

/-- The `initializeWidget` function (source lines 117-172): bail out if the container ref
is null; clear the container and append a fresh inner div; re-check the
provider (line 134) and log an error if missing; call the provider — if it
raises, the catch at lines 167-171 logs the error, resets `hasInitialized`
and `isWidgetLoaded`; otherwise store the constructed handle and set
`isWidgetLoaded`. -/
def initializeWidget (s : WidgetState) : WidgetState :=
  if s.containerMounted = false then s
  else
    let s1 := { s with containerChildren := 1 }
    if s1.providerAvailable = false then
      { s1 with errors := s1.errors + 1 }
    else if s1.providerThrows then
      { s1 with errors := s1.errors + 1, hasInitialized := false, isWidgetLoaded := false }
    else
      { s1 with widgetInstance := some componentHandle, isWidgetLoaded := true }

/-- The `initializeWidgetProcess` function (source lines 84-110): return early if
`hasInitialized` is set; if the provider is available call `initializeWidget`
and THEN set `hasInitialized` (line 89); otherwise start a poll interval and
a 10-second timeout paired with it (lines 91-103). The canceller closure the
source returns at lines 105-108 is discarded by both call sites (the
`setTimeout` at lines 57-59 and 113), so it creates no state and is not
modelled as reachable. -/
def initializeWidgetProcess (s : WidgetState) : WidgetState :=
  if s.hasInitialized then s
  else if s.providerAvailable then
    let s1 := initializeWidget s
    { s1 with hasInitialized := true }
  else
    let iid := s.nextTimerId
    { s with
        timers := s.timers ++
          [{ id := iid, kind := TimerKind.pollInterval },
           { id := iid + 1, kind := TimerKind.timeout10s iid }],
        nextTimerId := s.nextTimerId + 2 }

/-- The body of one poll-interval tick (source lines 91-97): if the provider
is now available, initialize, set the guard, and `clearInterval` on this
interval's own id. The tick does not touch the paired 10-second timeout. -/
def pollTick (iid : Nat) (s : WidgetState) : WidgetState :=
  if s.providerAvailable then
    let s1 := initializeWidget s
    let s2 := { s1 with hasInitialized := true }
    { s2 with timers := s2.timers.filter (fun t => t.id != iid) }
  else s

/-- The body of the 10-second timeout (source lines 100-103): clear the
paired poll interval and log a warning. -/
def timeoutBody (iid : Nat) (s : WidgetState) : WidgetState :=
  { s with
      timers := s.timers.filter (fun t => t.id != iid),
      warnings := s.warnings + 1 }

/-- Fire the pending timer with id `tid`, if any: one-shot timers are removed
from the pending list before their body runs; an interval stays pending
unless its body clears it. -/
def fireTimer (tid : Nat) (s : WidgetState) : WidgetState :=
  match s.timers.find? (fun t => t.id == tid) with
  | none => s
  | some t =>
      match t.kind with
      | TimerKind.mountDelay =>
          initializeWidgetProcess { s with timers := s.timers.filter (fun u => u.id != tid) }
      | TimerKind.reinitDelay =>
          initializeWidgetProcess { s with timers := s.timers.filter (fun u => u.id != tid) }
      | TimerKind.pollInterval => pollTick tid s
      | TimerKind.timeout10s iid =>
          timeoutBody iid { s with timers := s.timers.filter (fun u => u.id != tid) }

/-- Forwarding in `updateWidget` (source lines 48-52): forward the payload to the live
instance's update method if one exists; otherwise do nothing. -/
def applyUpdate (h : WidgetInstance) (data : String) : WidgetInstance :=
  match h.updateB with
  | UpdateB.noop => h
  | UpdateB.record => { h with received := data :: h.received }

/-- The `updateWidget` ref method (source lines 48-52). -/
def updateWidget (data : String) (s : WidgetState) : WidgetState :=
  match s.widgetInstance with
  | none => s
  | some h => { s with widgetInstance := some (applyUpdate h data) }

/-- The `reinitialize` ref method (source lines 53-60): `cleanup()`, bump
`containerKey`, clear `hasInitialized`, and `setTimeout` a 100ms call to
`initializeWidgetProcess`. Bumping the key re-runs the `useEffect` at lines
112-115 (effects run well before the 100ms timer can fire): its cleanup
clears the previous mount-delay timer and the new effect schedules a fresh
`setTimeout(initializeWidgetProcess, 300)`; both are folded into this step. -/
def reinitialize (s : WidgetState) : WidgetState :=
  let s1 := cleanup s
  let s2 := { s1 with containerKey := s1.containerKey + 1, hasInitialized := false }
  let s3 := { s2 with
      timers := s2.timers ++ [Timer.mk s2.nextTimerId TimerKind.reinitDelay],
      nextTimerId := s2.nextTimerId + 1 }
  let s4 := { s3 with timers := s3.timers.filter (fun t => t.kind != TimerKind.mountDelay) }
  { s4 with
      timers := s4.timers ++ [Timer.mk s4.nextTimerId TimerKind.mountDelay],
      nextTimerId := s4.nextTimerId + 1 }

/-- Unmounting the component: React runs the effect cleanups — the
`useEffect []` at lines 80-82 invokes `cleanup`, and the `useEffect
[containerKey]` cleanup at line 114 clears the pending mount-delay timer —
and the container ref is nulled. No other pending timer is cancelled
anywhere (the canceller returned by `initializeWidgetProcess` is discarded
by its call sites). -/
def unmount (s : WidgetState) : WidgetState :=
  let s1 := { s with timers := s.timers.filter (fun t => t.kind != TimerKind.mountDelay) }
  let s2 := cleanup s1
  { s2 with containerMounted := false }

/-- The events a trace is built from: a timer firing (scheduler picks any
pending id), the holder invoking a ref method, unmount, and the external
script loading (making the provider available). -/
inductive Event
  | fire (tid : Nat)
  | reinit
  | update (data : String)
  | unmountEv
  | providerAppears
deriving DecidableEq

/-- One step of the event loop. -/
def step (e : Event) (s : WidgetState) : WidgetState :=
  match e with
  | Event.fire tid => fireTimer tid s
  | Event.reinit => reinitialize s
  | Event.update d => updateWidget d s
  | Event.unmountEv => unmount s
  | Event.providerAppears => { s with providerAvailable := true }

/-- Run a list of events in order. -/
def run (evs : List Event) (s : WidgetState) : WidgetState :=
  evs.foldl (fun s e => step e s) s

/-- The state right after mount: the `useEffect [containerKey]` has scheduled
`setTimeout(initializeWidgetProcess, 300)` (timer id 0); nothing is loaded;
the provider is not yet available. `pThrows` fixes, per scenario, whether
calling the provider raises. -/
def mountState (pThrows : Bool) : WidgetState :=
  { containerKey := 0
    containerMounted := true
    containerChildren := 0
    widgetInstance := none
    isWidgetLoaded := false
    hasInitialized := false
    timers := [{ id := 0, kind := TimerKind.mountDelay }]
    nextTimerId := 1
    providerAvailable := false
    providerThrows := pThrows
    warnings := 0
    errors := 0
    destroyCalls := 0 }

/-- Every handle held in the state has a no-op update method. The component
only ever stores `componentHandle` (whose update is the no-op closure at
source line 158), so this holds of every reachable state. -/
def noopHandles (s : WidgetState) : Prop :=
  ∀ h : WidgetInstance, s.widgetInstance = some h → h.updateB = UpdateB.noop

/-! ## Helper lemmas -/

/-- Characterization of `updateWidget`: it changes exactly the instance
field, mapping the payload through the handle's update method. -/
theorem updateWidget_map (data : String) (s : WidgetState) :
    updateWidget data s
      = { s with widgetInstance := s.widgetInstance.map (fun h => applyUpdate h data) } := by
  obtain ⟨ck, cm, cc, wi, wl, hi, tm, ni, pa, pt, w, er, d⟩ := s
  cases wi <;> rfl

/-- A handle's update method never changes which update method it has. -/
theorem applyUpdate_updateB (h : WidgetInstance) (data : String) :
    (applyUpdate h data).updateB = h.updateB := by
  obtain ⟨ub, pl, db⟩ := h
  cases ub <;> rfl

/-- On a state all of whose handles have no-op updates, `updateWidget` is the
identity. -/
theorem updateWidget_noop (data : String) (s : WidgetState) (hs : noopHandles s) :
    updateWidget data s = s := by
  obtain ⟨ck, cm, cc, wi, wl, hi, tm, ni, pa, pt, w, er, d⟩ := s
  cases wi with
  | none => rfl
  | some h =>
      have hb := hs h rfl
      obtain ⟨ub, pl, db⟩ := h
      cases ub with
      | noop => rfl
      | record => simp at hb

/-- Frame lemma: `cleanup` never touches the re-entry guard, the provider flags, the
timer list or the id supply; it can only null the instance and reset the
loaded flag. -/
theorem cleanup_proj (s : WidgetState) :
    (cleanup s).hasInitialized = s.hasInitialized
    ∧ (cleanup s).providerAvailable = s.providerAvailable
    ∧ (cleanup s).timers = s.timers
    ∧ (cleanup s).nextTimerId = s.nextTimerId
    ∧ ((cleanup s).isWidgetLoaded = false ∨ (cleanup s).isWidgetLoaded = s.isWidgetLoaded)
    ∧ ((cleanup s).widgetInstance = none ∨ (cleanup s).widgetInstance = s.widgetInstance) := by
  obtain ⟨ck, cm, cc, wi, wl, hi, tm, ni, pa, pt, w, er, d⟩ := s
  cases wi with
  | none => cases cm <;> exact ⟨rfl, rfl, rfl, rfl, Or.inr rfl, Or.inr rfl⟩
  | some h =>
      obtain ⟨ub, pl, db⟩ := h
      cases db with
      | missing => cases cm <;> exact ⟨rfl, rfl, rfl, rfl, Or.inr rfl, Or.inr rfl⟩
      | clearContainer => cases cm <;> exact ⟨rfl, rfl, rfl, rfl, Or.inl rfl, Or.inl rfl⟩
      | throws => cases cm <;> exact ⟨rfl, rfl, rfl, rfl, Or.inl rfl, Or.inl rfl⟩

/-- While the provider is unavailable, `initializeWidget` can only log an
error; it loads nothing and leaves the guard, instance and timers alone. -/
theorem initializeWidget_notAvailable (s : WidgetState)
    (hpa : s.providerAvailable = false) :
    (initializeWidget s).providerAvailable = false
    ∧ (initializeWidget s).isWidgetLoaded = s.isWidgetLoaded
    ∧ (initializeWidget s).hasInitialized = s.hasInitialized
    ∧ (initializeWidget s).widgetInstance = s.widgetInstance
    ∧ (initializeWidget s).timers = s.timers := by
  obtain ⟨ck, cm, cc, wi, wl, hi, tm, ni, pa, pt, w, er, d⟩ := s
  cases hpa
  cases cm <;> exact ⟨rfl, rfl, rfl, rfl, rfl⟩

/-- While the provider is unavailable, `initializeWidgetProcess` only
schedules timers: the loaded flag, guard and instance are untouched. -/
theorem initializeWidgetProcess_notAvailable (s : WidgetState)
    (hpa : s.providerAvailable = false) :
    (initializeWidgetProcess s).providerAvailable = false
    ∧ (initializeWidgetProcess s).isWidgetLoaded = s.isWidgetLoaded
    ∧ (initializeWidgetProcess s).hasInitialized = s.hasInitialized
    ∧ (initializeWidgetProcess s).widgetInstance = s.widgetInstance := by
  obtain ⟨ck, cm, cc, wi, wl, hi, tm, ni, pa, pt, w, er, d⟩ := s
  cases hpa
  cases hi <;> exact ⟨rfl, rfl, rfl, rfl⟩

/-- Frame lemma: `updateWidget` touches nothing but the instance field. -/
theorem updateWidget_proj (data : String) (s : WidgetState) :
    (updateWidget data s).providerAvailable = s.providerAvailable
    ∧ (updateWidget data s).isWidgetLoaded = s.isWidgetLoaded
    ∧ (updateWidget data s).hasInitialized = s.hasInitialized
    ∧ (updateWidget data s).timers = s.timers := by
  obtain ⟨ck, cm, cc, wi, wl, hi, tm, ni, pa, pt, w, er, d⟩ := s
  cases wi <;> exact ⟨rfl, rfl, rfl, rfl⟩

/-- Idempotence: `cleanup (cleanup s)` equals `cleanup s` on every state. -/
theorem cleanup_idem (s : WidgetState) : cleanup (cleanup s) = cleanup s := by
  obtain ⟨ck, cm, cc, wi, wl, hi, tm, ni, pa, pt, w, er, d⟩ := s
  cases wi with
  | none => cases cm <;> rfl
  | some h =>
      obtain ⟨ub, pl, db⟩ := h
      cases db with
      | missing => cases cm <;> rfl
      | clearContainer => cases cm <;> rfl
      | throws => cases cm <;> rfl

/-! ## Claim C6 — target URL construction -/

/-- C6: for every tracking identifier the constructed target URL is the fixed
base `https://verification.diro.io/?buttonid=O.c117bd44-8cfa-42df-99df-c4ad2ba6c6f5-Z6Jc`
followed by `&trackid=` and the identifier; identifier `"abc123"` yields a
URL ending in `trackid=abc123`, and an absent identifier yields a URL ending
in `trackid=` (empty-valued parameter). -/
theorem C6_targetUrl_shape :
    (∀ u : String, targetUrl (some u) = buttonBase ++ u)
    ∧ targetUrl none = buttonBase
    ∧ targetUrl (some "abc123")
        = "https://verification.diro.io/?buttonid=O.c117bd44-8cfa-42df-99df-c4ad2ba6c6f5-Z6Jc&"
            ++ "trackid=abc123"
    ∧ targetUrl none
        = "https://verification.diro.io/?buttonid=O.c117bd44-8cfa-42df-99df-c4ad2ba6c6f5-Z6Jc&"
            ++ "trackid=" := by
  refine ⟨?_, rfl, rfl, rfl⟩
  intro u
  by_cases h : u = ""
  · subst h; rfl
  · show (if u = "" then _ else _) = _
    rw [if_neg h]
    rfl

/-! ## Claim C8 — updateWidget forwards / no-op when not loaded -/

/-- C8: `updateWidget` is a total function of the state: when no handle
exists it returns the state unchanged (no throw, no state change — the
right-hand side collapses to `s` since mapping over `none` is `none` and the
remaining fields are untouched), and when a handle exists it changes exactly
the instance field, forwarding the payload to the handle's update method. -/
theorem C8_updateWidget_total :
    ∀ (data : String) (s : WidgetState),
      updateWidget data s
        = { s with widgetInstance := s.widgetInstance.map (fun h => applyUpdate h data) } :=
  fun data s => updateWidget_map data s

/-! ## Claim C9 — cleanup idempotent, error-swallowing, safe -/

/-- C9: `cleanup` is idempotent on every state; when no instance is present
it just clears the container's DOM contents (safe no-op on the rest of the
state, destroy not invoked); and for an instance whose destroy method
raises, the error is caught and logged, the instance is still removed, the
loaded flag is still reset, and the container's contents are still cleared. -/
theorem C9_cleanup_idempotent_safe :
    ∀ (s : WidgetState) (ub : UpdateB) (pl : List String),
      cleanup (cleanup s) = cleanup s
      ∧ cleanup { s with widgetInstance := none }
          = clearContainer { s with widgetInstance := none }
      ∧ (cleanup { s with widgetInstance := some (WidgetInstance.mk ub pl DestroyB.throws),
                          containerMounted := true }).errors = s.errors + 1
      ∧ (cleanup { s with widgetInstance := some (WidgetInstance.mk ub pl DestroyB.throws),
                          containerMounted := true }).widgetInstance = none
      ∧ (cleanup { s with widgetInstance := some (WidgetInstance.mk ub pl DestroyB.throws),
                          containerMounted := true }).isWidgetLoaded = false
      ∧ (cleanup { s with widgetInstance := some (WidgetInstance.mk ub pl DestroyB.throws),
                          containerMounted := true }).containerChildren = 0 := by
  intro s ub pl
  refine ⟨cleanup_idem s, ?_, ?_, ?_, ?_, ?_⟩ <;>
    · obtain ⟨ck, cm, cc, wi, wl, hi, tm, ni, pa, pt, w, er, d⟩ := s
      rfl

/-! ## Claim C1 — exception during the initialize attempt (code bug) -/

/-- C1 at the failing input: mount with the provider available but raising.
The exception is indeed caught (the run is total), logged (`errors` becomes
1), and the loaded flag is reset with no instance stored — but the re-entry
guard ends up SET, because line 89 of the source runs `hasInitialized.current
= true` after `initializeWidget` returns, overwriting the reset performed in
the catch block at line 169; a subsequent `initializeWidgetProcess` call is
therefore a no-op, contradicting the claim that a future initialize attempt
is permitted. -/
theorem C1_guard_set_after_failure :
    (run [Event.providerAppears, Event.fire 0] (mountState true)).errors = 1
    ∧ (run [Event.providerAppears, Event.fire 0] (mountState true)).isWidgetLoaded = false
    ∧ (run [Event.providerAppears, Event.fire 0] (mountState true)).widgetInstance = none
    ∧ (run [Event.providerAppears, Event.fire 0] (mountState true)).hasInitialized = true
    ∧ initializeWidgetProcess (run [Event.providerAppears, Event.fire 0] (mountState true))
        = run [Event.providerAppears, Event.fire 0] (mountState true) := by
  decide

/-! ## Claim C2 — unmount does not cancel the poll/timeout timers (code bug) -/

/-- C2 at the failing input: mount with the provider unavailable; the
300ms mount delay fires and starts the poll interval (timer 1) and the
10-second timeout (timer 2); then the component unmounts. Unmount clears
only the mount-delay timer and runs `cleanup` — the poll interval and the
timeout remain pending (the canceller returned by `initializeWidgetProcess`
at source lines 105-108 is discarded by the `setTimeout` call site at line
113), and a later poll tick still executes against the unmounted component,
flipping `hasInitialized`. This contradicts the claim that unmounting
synchronously cancels every pending timer. -/
theorem C2_timers_survive_unmount :
    (run [Event.fire 0, Event.unmountEv] (mountState false)).timers
      = [Timer.mk 1 TimerKind.pollInterval, Timer.mk 2 (TimerKind.timeout10s 1)]
    ∧ (run [Event.fire 0, Event.unmountEv] (mountState false)).containerMounted = false
    ∧ (run [Event.fire 0, Event.unmountEv, Event.providerAppears, Event.fire 1]
          (mountState false)).hasInitialized = true
    ∧ (run [Event.fire 0, Event.unmountEv, Event.fire 2] (mountState false)).warnings = 1 := by
  decide

/-! ## Instance-characterization lemmas: the only handle the component ever
stores is `componentHandle`. -/

/-- The function `initializeWidget` either leaves the instance alone or stores the
component's own handle. -/
theorem initializeWidget_instance (s : WidgetState) :
    (initializeWidget s).widgetInstance = s.widgetInstance
    ∨ (initializeWidget s).widgetInstance = some componentHandle := by
  obtain ⟨ck, cm, cc, wi, wl, hi, tm, ni, pa, pt, w, er, d⟩ := s
  cases cm <;> cases pa <;> cases pt <;> first | exact Or.inl rfl | exact Or.inr rfl

/-- The function `initializeWidgetProcess` either leaves the instance alone or stores the
component's own handle. -/
theorem initializeWidgetProcess_instance (s : WidgetState) :
    (initializeWidgetProcess s).widgetInstance = s.widgetInstance
    ∨ (initializeWidgetProcess s).widgetInstance = some componentHandle := by
  obtain ⟨ck, cm, cc, wi, wl, hi, tm, ni, pa, pt, w, er, d⟩ := s
  cases hi with
  | true => exact Or.inl rfl
  | false =>
      cases pa with
      | false => exact Or.inl rfl
      | true => exact initializeWidget_instance _

/-- A poll tick either leaves the instance alone or stores the component's
own handle. -/
theorem pollTick_instance (iid : Nat) (s : WidgetState) :
    (pollTick iid s).widgetInstance = s.widgetInstance
    ∨ (pollTick iid s).widgetInstance = some componentHandle := by
  unfold pollTick
  split
  · exact initializeWidget_instance s
  · exact Or.inl rfl

/-- Firing any timer either leaves the instance alone or stores the
component's own handle. -/
theorem fireTimer_instance (tid : Nat) (s : WidgetState) :
    (fireTimer tid s).widgetInstance = s.widgetInstance
    ∨ (fireTimer tid s).widgetInstance = some componentHandle := by
  unfold fireTimer
  split
  · exact Or.inl rfl
  · split
    · exact initializeWidgetProcess_instance _
    · exact initializeWidgetProcess_instance _
    · exact pollTick_instance _ _
    · exact Or.inl rfl

/-- After any event, the instance is unchanged, removed, the component's own
handle, or (for the update event) the old handle passed through its update
method. `noopHandles` is preserved in every case. -/
theorem step_noopHandles (e : Event) (s : WidgetState) (hs : noopHandles s) :
    noopHandles (step e s) := by
  cases e with
  | fire tid =>
      intro h hh
      simp only [step] at hh
      rcases fireTimer_instance tid s with h1 | h1
      · exact hs h (h1 ▸ hh)
      · rw [h1] at hh
        cases hh
        rfl
  | reinit =>
      intro h hh
      simp only [step] at hh
      have hc := (cleanup_proj s).2.2.2.2.2
      have he : ( reinitialize s).widgetInstance = (cleanup s).widgetInstance := rfl
      rw [he] at hh
      rcases hc with h1 | h1
      · rw [h1] at hh; cases hh
      · exact hs h (h1 ▸ hh)
  | update data =>
      intro h hh
      simp only [step] at hh
      rw [updateWidget_map data s] at hh
      cases hwi : s.widgetInstance with
      | none => rw [hwi] at hh; cases hh
      | some h0 =>
          rw [hwi] at hh
          simp only [Option.map_some'] at hh
          cases hh
          rw [applyUpdate_updateB]
          exact hs h0 hwi
  | unmountEv =>
      intro h hh
      simp only [step] at hh
      have hc := (cleanup_proj { s with
          timers := s.timers.filter (fun t => t.kind != TimerKind.mountDelay) }).2.2.2.2.2
      have he : (unmount s).widgetInstance
          = (cleanup { s with
              timers := s.timers.filter (fun t => t.kind != TimerKind.mountDelay) }).widgetInstance := rfl
      rw [he] at hh
      rcases hc with h1 | h1
      · rw [h1] at hh; cases hh
      · exact hs h (h1 ▸ hh)
  | providerAppears => exact fun h hh => hs h hh

/-- Invariance: `noopHandles` holds along every trace from a state satisfying it. -/
theorem run_noopHandles (evs : List Event) :
    ∀ s : WidgetState, noopHandles s → noopHandles (run evs s) := by
  induction evs with
  | nil => exact fun s hs => hs
  | cons e es ih => exact fun s hs => ih (step e s) (step_noopHandles e s hs)

/-! ## Claim C10 — updateWidget has no observable effect on reachable states -/

/-- C10: on every state reachable from mount — whatever the events, the
payload, and whether the provider raises — `updateWidget` returns the state
unchanged: the handle the component constructs has a do-nothing update
method, so forwarding to it has no observable effect on the widget, the DOM
or the component state. -/
theorem C10_updateWidget_has_no_effect :
    ∀ (evs : List Event) (data : String) (pt : Bool),
      updateWidget data (run evs (mountState pt)) = run evs (mountState pt) := by
  intro evs data pt
  refine updateWidget_noop data _ (run_noopHandles evs (mountState pt) ?_)
  intro h hh
  cases hh

/-! ## Claim C4 — the re-entry guard is NOT reset by cleanup -/

/-- C4 counterexample: reach the loaded state (provider available, mount
delay fired), where the guard is set and a live handle exists, and run
`cleanup`: the guard is still set afterwards — `cleanup` (source lines
63-78) never touches `hasInitialized`, refuting "that flag is reset only by
cleanup". (It is `reinitialize`, at line 56, that resets it.) -/
theorem C4_cleanup_keeps_guard :
    (run [Event.providerAppears, Event.fire 0] (mountState false)).hasInitialized = true
    ∧ (run [Event.providerAppears, Event.fire 0] (mountState false)).widgetInstance
        = some componentHandle
    ∧ (cleanup (run [Event.providerAppears, Event.fire 0] (mountState false))).hasInitialized
        = true
    ∧ (cleanup (run [Event.providerAppears, Event.fire 0] (mountState false))).widgetInstance
        = none := by
  decide

/-- C4 amended: the state holds at most one handle (a single optional
reference, nulled by cleanup), and a new `initializeWidgetProcess` call
returns immediately — scheduling and doing nothing — while `hasInitialized`
is set; but the flag is reset by `reinitialize` (and by the initialize error
path), never by `cleanup`, which leaves it unchanged. -/
theorem C4_guard_blocks_and_reset (s : WidgetState) (h : s.hasInitialized = true) :
    initializeWidgetProcess s = s
    ∧ (cleanup s).hasInitialized = true
    ∧ ( reinitialize s).hasInitialized = false := by
  refine ⟨?_, ?_, rfl⟩
  · simp [initializeWidgetProcess, h]
  · rw [(cleanup_proj s).1, h]

/-- C4 witness: the amended guard behaviour at the concrete loaded state. -/
theorem C4_guard_blocks_and_reset_witness :
    (run [Event.providerAppears, Event.fire 0] (mountState false)).hasInitialized = true
    ∧ (initializeWidgetProcess (run [Event.providerAppears, Event.fire 0] (mountState false))
          = run [Event.providerAppears, Event.fire 0] (mountState false)
      ∧ (cleanup (run [Event.providerAppears, Event.fire 0] (mountState false))).hasInitialized
          = true
      ∧ ( reinitialize (run [Event.providerAppears, Event.fire 0]
            (mountState false))).hasInitialized = false) :=
  ⟨by decide, C4_guard_blocks_and_reset _ (by decide)⟩

/-! ## Claim C5 — reinitialize schedules TWO initialize attempts -/

/-- C5 counterexample: calling `reinitialize` leaves TWO pending timers whose
callbacks run `initializeWidgetProcess` — the 100ms delay it schedules
itself and the 300ms mount delay scheduled by the `useEffect` re-run caused
by the `containerKey` bump. Firing both while the provider is still
unavailable starts two concurrent poll intervals, so more than one fresh
initialize attempt was scheduled, refuting "schedules exactly one fresh
initialize attempt". -/
theorem C5_two_attempts_scheduled :
    ( reinitialize (mountState false)).timers
      = [Timer.mk 1 TimerKind.reinitDelay, Timer.mk 2 TimerKind.mountDelay]
    ∧ ((run [Event.reinit, Event.fire 1, Event.fire 2] (mountState false)).timers.filter
        (fun t => t.kind == TimerKind.pollInterval)).length = 2 := by
  decide

/-- Unconditional effects of `reinitialize`, valid on every state: the
container generation strictly increases, the re-entry guard is cleared, and
the pending timers become the old ones (minus any mount-delay timer, which
the effect cleanup clears) plus the fresh 100ms reinit delay and the fresh
300ms mount delay. -/
theorem reinitialize_unconditional (s : WidgetState) :
    ( reinitialize s).containerKey = s.containerKey + 1
    ∧ ( reinitialize s).hasInitialized = false
    ∧ ( reinitialize s).timers
        = s.timers.filter (fun t => t.kind != TimerKind.mountDelay)
          ++ [Timer.mk s.nextTimerId TimerKind.reinitDelay,
              Timer.mk (s.nextTimerId + 1) TimerKind.mountDelay] := by
  obtain ⟨ck, cm, cc, wi, wl, hi, tm, ni, pa, pt, w, er, d⟩ := s
  cases wi with
  | none =>
      cases cm <;>
        · refine ⟨rfl, rfl, ?_⟩
          show ((tm ++ [Timer.mk ni TimerKind.reinitDelay]).filter
                  (fun t => t.kind != TimerKind.mountDelay))
                ++ [Timer.mk (ni + 1) TimerKind.mountDelay]
              = tm.filter (fun t => t.kind != TimerKind.mountDelay)
                ++ [Timer.mk ni TimerKind.reinitDelay, Timer.mk (ni + 1) TimerKind.mountDelay]
          rw [List.filter_append]
          simp
  | some h =>
      obtain ⟨ub, pl, db⟩ := h
      cases db <;> cases cm <;>
        · refine ⟨rfl, rfl, ?_⟩
          show ((tm ++ [Timer.mk ni TimerKind.reinitDelay]).filter
                  (fun t => t.kind != TimerKind.mountDelay))
                ++ [Timer.mk (ni + 1) TimerKind.mountDelay]
              = tm.filter (fun t => t.kind != TimerKind.mountDelay)
                ++ [Timer.mk ni TimerKind.reinitDelay, Timer.mk (ni + 1) TimerKind.mountDelay]
          rw [List.filter_append]
          simp

/-- C5 amended: every `reinitialize()` call, regardless of prior LoadState,
strictly increases the container generation, clears the re-entry guard, and
directly schedules one fresh initialize attempt after the 100ms delay — but
the generation bump also re-runs the mount effect, which schedules a second
attempt after 300ms (suppressed by the re-entry guard only if the first
attempt has already succeeded). If a live widget exists (the component's
handle, container mounted) it is synchronously torn down: destroy is called
exactly once on the old handle, the container is cleared, and the loaded
flag and instance are reset; if no widget is loaded, destroy is not
called. -/
theorem C5_reinitialize_effects :
    ∀ s : WidgetState,
      ( reinitialize s).containerKey = s.containerKey + 1
      ∧ ( reinitialize s).hasInitialized = false
      ∧ ( reinitialize s).timers
          = s.timers.filter (fun t => t.kind != TimerKind.mountDelay)
            ++ [Timer.mk s.nextTimerId TimerKind.reinitDelay,
                Timer.mk (s.nextTimerId + 1) TimerKind.mountDelay]
      ∧ ( reinitialize { s with widgetInstance := some componentHandle, containerMounted := true }).destroyCalls = s.destroyCalls + 1
      ∧ ( reinitialize { s with widgetInstance := some componentHandle, containerMounted := true }).isWidgetLoaded = false
      ∧ ( reinitialize { s with widgetInstance := some componentHandle, containerMounted := true }).widgetInstance = none
      ∧ ( reinitialize { s with widgetInstance := some componentHandle, containerMounted := true }).containerChildren = 0
      ∧ ( reinitialize { s with widgetInstance := none }).destroyCalls = s.destroyCalls := by
  intro s
  have hu := reinitialize_unconditional s
  refine ⟨hu.1, hu.2.1, hu.2.2, ?_, ?_, ?_, ?_, ?_⟩ <;>
    · obtain ⟨ck, cm, cc, wi, wl, hi, tm, ni, pa, pt, w, er, d⟩ := s
      first
      | rfl
      | cases cm <;> rfl

/-! ## Claim C3 — the two timers are not always cancelled together -/

/-- Frame lemma: `initializeWidget` never touches the timer list. -/
theorem initializeWidget_timers (s : WidgetState) :
    (initializeWidget s).timers = s.timers := by
  obtain ⟨ck, cm, cc, wi, wl, hi, tm, ni, pa, pt, w, er, d⟩ := s
  cases cm <;> cases pa <;> cases pt <;> rfl

/-- C3 counterexample: the mount delay fires with the provider unavailable,
starting the poll interval (timer 1) and the 10-second timeout (timer 2);
the provider then appears and the next poll tick observes it — the widget
loads, but only the poll interval is cleared (source line 95 runs just
`clearInterval(checkInterval)`): the timeout timer is still pending and
later fires, logging a spurious warning. This refutes "both timers are
cancelled as soon as either the provider is observed available on a poll
tick or the timeout fires". -/
theorem C3_timeout_survives_success :
    (run [Event.fire 0, Event.providerAppears, Event.fire 1] (mountState false)).isWidgetLoaded
      = true
    ∧ (run [Event.fire 0, Event.providerAppears, Event.fire 1] (mountState false)).timers
        = [Timer.mk 2 (TimerKind.timeout10s 1)]
    ∧ (run [Event.fire 0, Event.providerAppears, Event.fire 1, Event.fire 2]
          (mountState false)).warnings = 1 := by
  decide

/-- C3 amended: the cancellation is one-sided. When the 10-second timeout
fires, both timers are gone: the timeout itself expires and its handler
clears the paired poll interval (and logs the warning). But when the
provider is observed available on a poll tick, only the poll interval is
cleared: the paired timeout timer survives the tick and remains pending. -/
theorem C3_one_sided_cancellation (s : WidgetState) (iid tid : Nat)
    (hft : s.timers.find? (fun t => t.id == tid)
        = some (Timer.mk tid (TimerKind.timeout10s iid)))
    (hfi : s.timers.find? (fun t => t.id == iid) = some (Timer.mk iid TimerKind.pollInterval))
    (hmem : Timer.mk tid (TimerKind.timeout10s iid) ∈ s.timers)
    (hav : s.providerAvailable = true)
    (hne : tid ≠ iid) :
    ((fireTimer tid s).timers.filter (fun t => t.id == tid || t.id == iid) = []
      ∧ (fireTimer tid s).warnings = s.warnings + 1)
    ∧ (Timer.mk tid (TimerKind.timeout10s iid) ∈ (fireTimer iid s).timers
      ∧ (fireTimer iid s).timers.filter (fun t => t.id == iid) = []) := by
  have e1 : fireTimer tid s
      = timeoutBody iid { s with timers := s.timers.filter (fun u => u.id != tid) } := by
    unfold fireTimer
    rw [hft]
  have e2 : fireTimer iid s
      = { ({ initializeWidget s with hasInitialized := true }) with
          timers := (initializeWidget s).timers.filter (fun t => t.id != iid) } := by
    unfold fireTimer
    rw [hfi]
    simp [pollTick, hav]
  constructor
  · constructor
    · rw [e1]
      show (((s.timers.filter (fun u => u.id != tid)).filter (fun t => t.id != iid)).filter
          (fun t => t.id == tid || t.id == iid)) = []
      rw [List.filter_eq_nil_iff]
      intro a ha
      rw [List.mem_filter] at ha
      obtain ⟨ha1, hai⟩ := ha
      rw [List.mem_filter] at ha1
      obtain ⟨_, hat⟩ := ha1
      rw [bne_iff_ne] at hat hai
      simp [hat, hai]
    · rw [e1]
      rfl
  · rw [e2]
    constructor
    · show Timer.mk tid (TimerKind.timeout10s iid)
          ∈ (initializeWidget s).timers.filter (fun t => t.id != iid)
      rw [List.mem_filter, initializeWidget_timers]
      exact ⟨hmem, by simpa using hne⟩
    · show ((initializeWidget s).timers.filter (fun t => t.id != iid)).filter
          (fun t => t.id == iid) = []
      rw [List.filter_eq_nil_iff]
      intro a ha
      rw [List.mem_filter] at ha
      obtain ⟨_, hai⟩ := ha
      rw [bne_iff_ne] at hai
      simp [hai]

/-- C3 witness: the one-sided cancellation at the concrete polling state
(timers 1 and 2 pending, provider available). -/
theorem C3_one_sided_cancellation_witness :
    ((run [Event.fire 0, Event.providerAppears] (mountState false)).timers.find?
          (fun t => t.id == 2) = some (Timer.mk 2 (TimerKind.timeout10s 1))
      ∧ (run [Event.fire 0, Event.providerAppears] (mountState false)).timers.find?
          (fun t => t.id == 1) = some (Timer.mk 1 TimerKind.pollInterval)
      ∧ Timer.mk 2 (TimerKind.timeout10s 1)
          ∈ (run [Event.fire 0, Event.providerAppears] (mountState false)).timers
      ∧ (run [Event.fire 0, Event.providerAppears] (mountState false)).providerAvailable = true)
    ∧ (((fireTimer 2 (run [Event.fire 0, Event.providerAppears] (mountState false))).timers.filter
            (fun t => t.id == 2 || t.id == 1) = []
        ∧ (fireTimer 2 (run [Event.fire 0, Event.providerAppears]
            (mountState false))).warnings
          = (run [Event.fire 0, Event.providerAppears] (mountState false)).warnings + 1)
      ∧ (Timer.mk 2 (TimerKind.timeout10s 1)
            ∈ (fireTimer 1 (run [Event.fire 0, Event.providerAppears]
                (mountState false))).timers
        ∧ (fireTimer 1 (run [Event.fire 0, Event.providerAppears]
              (mountState false))).timers.filter (fun t => t.id == 1) = [])) :=
  ⟨⟨by decide, by decide, by decide, by decide⟩,
    C3_one_sided_cancellation _ 1 2 (by decide) (by decide) (by decide) (by decide)
      (by decide)⟩

/-! ## Claim C7 — timeout abandons the attempt; not-loaded persists -/

/-- While the provider is unavailable a poll tick does nothing. -/
theorem pollTick_notAvailable (iid : Nat) (s : WidgetState)
    (hpa : s.providerAvailable = false) :
    pollTick iid s = s := by
  simp [pollTick, hpa]

/-- While the provider is unavailable, firing any timer leaves the provider
flag false and cannot make the component loaded. -/
theorem fireTimer_notAvailable (tid : Nat) (s : WidgetState)
    (hpa : s.providerAvailable = false) (hld : s.isWidgetLoaded = false) :
    (fireTimer tid s).providerAvailable = false
    ∧ (fireTimer tid s).isWidgetLoaded = false := by
  unfold fireTimer
  split
  · exact ⟨hpa, hld⟩
  · split
    · have h := initializeWidgetProcess_notAvailable
        { s with timers := s.timers.filter (fun u => u.id != tid) } hpa
      exact ⟨h.1, by rw [h.2.1]; exact hld⟩
    · have h := initializeWidgetProcess_notAvailable
        { s with timers := s.timers.filter (fun u => u.id != tid) } hpa
      exact ⟨h.1, by rw [h.2.1]; exact hld⟩
    · rw [pollTick_notAvailable _ s hpa]
      exact ⟨hpa, hld⟩
    · exact ⟨hpa, hld⟩

/-- No event other than the external script loading can make the provider
available, and while it is unavailable no event can make the component
loaded. -/
theorem step_notLoaded (e : Event) (s : WidgetState)
    (hne : e ≠ Event.providerAppears)
    (hpa : s.providerAvailable = false) (hld : s.isWidgetLoaded = false) :
    (step e s).providerAvailable = false ∧ (step e s).isWidgetLoaded = false := by
  cases e with
  | fire tid => exact fireTimer_notAvailable tid s hpa hld
  | reinit =>
      constructor
      · show (cleanup s).providerAvailable = false
        rw [(cleanup_proj s).2.1]
        exact hpa
      · show (cleanup s).isWidgetLoaded = false
        rcases (cleanup_proj s).2.2.2.2.1 with h1 | h1
        · exact h1
        · rw [h1]; exact hld
  | update data =>
      constructor
      · show (updateWidget data s).providerAvailable = false
        rw [(updateWidget_proj data s).1]
        exact hpa
      · show (updateWidget data s).isWidgetLoaded = false
        rw [(updateWidget_proj data s).2.1]
        exact hld
  | unmountEv =>
      constructor
      · show (cleanup { s with
            timers := s.timers.filter (fun t => t.kind != TimerKind.mountDelay)
          }).providerAvailable = false
        rw [(cleanup_proj _).2.1]
        exact hpa
      · show (cleanup { s with
            timers := s.timers.filter (fun t => t.kind != TimerKind.mountDelay)
          }).isWidgetLoaded = false
        rcases (cleanup_proj { s with
            timers := s.timers.filter (fun t => t.kind != TimerKind.mountDelay)
          }).2.2.2.2.1 with h1 | h1
        · exact h1
        · rw [h1]; exact hld
  | providerAppears => exact absurd rfl hne

/-- Along any trace that never contains the provider-appears event, a
not-loaded component with the provider unavailable stays not loaded. -/
theorem run_notLoaded (evs : List Event) :
    ∀ s : WidgetState, s.providerAvailable = false → s.isWidgetLoaded = false →
      Event.providerAppears ∉ evs →
      (run evs s).providerAvailable = false ∧ (run evs s).isWidgetLoaded = false := by
  induction evs with
  | nil => exact fun s h1 h2 _ => ⟨h1, h2⟩
  | cons e es ih =>
      intro s h1 h2 hni
      have hne : e ≠ Event.providerAppears := fun h => hni (h ▸ List.mem_cons_self e es)
      have hs := step_notLoaded e s hne h1 h2
      exact ih (step e s) hs.1 hs.2 (fun hm => hni (List.mem_cons_of_mem e hm))

/-- C7: if the 10-second timeout (timer `tid`, paired with poll interval
`iid`) fires while the component is not loaded and the provider unavailable,
its handler clears the paired poll timer (no timer with that id survives, so
no further polling from this attempt occurs), logs a warning, and the
component is still not loaded; and along any continuation in which the
provider never appears — explicit `reinitialize` calls included — the
component remains in the not-loaded state. -/
theorem C7_timeout_abandons (s : WidgetState) (iid tid : Nat) (evs : List Event)
    (hft : s.timers.find? (fun t => t.id == tid)
        = some (Timer.mk tid (TimerKind.timeout10s iid)))
    (hpa : s.providerAvailable = false)
    (hld : s.isWidgetLoaded = false)
    (hno : Event.providerAppears ∉ evs) :
    (fireTimer tid s).timers.filter (fun t => t.id == iid || t.id == tid) = []
    ∧ (fireTimer tid s).warnings = s.warnings + 1
    ∧ (fireTimer tid s).isWidgetLoaded = false
    ∧ (run evs (fireTimer tid s)).isWidgetLoaded = false := by
  have e1 : fireTimer tid s
      = timeoutBody iid { s with timers := s.timers.filter (fun u => u.id != tid) } := by
    unfold fireTimer
    rw [hft]
  refine ⟨?_, ?_, ?_, ?_⟩
  · rw [e1]
    show (((s.timers.filter (fun u => u.id != tid)).filter (fun t => t.id != iid)).filter
        (fun t => t.id == iid || t.id == tid)) = []
    rw [List.filter_eq_nil_iff]
    intro a ha
    rw [List.mem_filter] at ha
    obtain ⟨ha1, hai⟩ := ha
    rw [List.mem_filter] at ha1
    obtain ⟨_, hat⟩ := ha1
    rw [bne_iff_ne] at hat hai
    simp [hat, hai]
  · rw [e1]
    rfl
  · rw [e1]
    exact hld
  · have hfa : (fireTimer tid s).providerAvailable = false := by rw [e1]; exact hpa
    have hfl : (fireTimer tid s).isWidgetLoaded = false := by rw [e1]; exact hld
    exact (run_notLoaded evs (fireTimer tid s) hfa hfl hno).2

/-- C7 witness: timer 2 (the 10-second timeout paired with poll interval 1)
fires in the concrete polling state; the continuation even includes a
`reinitialize` call and the component still never loads. -/
theorem C7_timeout_abandons_witness :
    ((run [Event.fire 0] (mountState false)).timers.find? (fun t => t.id == 2)
        = some (Timer.mk 2 (TimerKind.timeout10s 1))
      ∧ (run [Event.fire 0] (mountState false)).providerAvailable = false
      ∧ (run [Event.fire 0] (mountState false)).isWidgetLoaded = false
      ∧ Event.providerAppears ∉ [Event.fire 1, Event.reinit, Event.fire 3])
    ∧ ((fireTimer 2 (run [Event.fire 0] (mountState false))).timers.filter
          (fun t => t.id == 1 || t.id == 2) = []
      ∧ (fireTimer 2 (run [Event.fire 0] (mountState false))).warnings
          = (run [Event.fire 0] (mountState false)).warnings + 1
      ∧ (fireTimer 2 (run [Event.fire 0] (mountState false))).isWidgetLoaded = false
      ∧ (run [Event.fire 1, Event.reinit, Event.fire 3]
            (fireTimer 2 (run [Event.fire 0] (mountState false)))).isWidgetLoaded = false) :=
  ⟨⟨by decide, by decide, by decide, by decide⟩,
    C7_timeout_abandons _ 1 2 [Event.fire 1, Event.reinit, Event.fire 3]
      (by decide) (by decide) (by decide) (by decide)⟩

end WidgetCapture
